import Mathlib

/-!
# Verification of the RBeditor core state (src/src/main.rs)

Shallow embedding of the `TextEditor` application state and its operations:
`save`, `load`, `open_directory`, `update_dir_contents`, `create_new_file`,
`toggle_settings` and `parse_and_highlight`.

Modelling conventions:
* Paths (`std::path::PathBuf`) are lists of components.  `FsPath::join` with a
  name that is empty appends nothing: in Rust, `d.join("")` produces `d` with a
  trailing separator, a path that denotes the same directory entry as `d` for
  the purposes of `exists()`; the model identifies the two.  File names are
  modelled as single components.
* The filesystem visible to the process is a record: a finite association list
  of regular files with their text contents, a finite list of existing
  directories, and boolean oracles telling which operations succeed
  (`fs::read_to_string` failures — missing file, invalid UTF-8, permissions —
  are `read_to_string _ _ = none`; `fs::write`, `fs::File::create` and
  `fs::read_dir` failures are governed by the corresponding oracle, and a
  `read_dir` iterator item that errors is governed by `entryOk`).
* `f32` appearance fields are modelled as exact rationals; `egui::Color32` as
  an rgba quadruple of naturals.
* The tree-sitter parser/highlighter handles are modelled as a black-box
  `Engine` (spec §6: the grammar engine is an external collaborator consumed
  as a black box): `parse` returns an optional tree, `highlightCaptures`
  returns the sequence of capture category names for which the highlight pass
  invokes its callback, or `none` when the pass errors.  A Rust `panic!`
  (`.expect(..)`) is modelled as the `none` result of the embedded function.
-/

/-- A filesystem path, as a list of components (`std::path::PathBuf`). -/
abbrev FsPath := List String

/-- The filesystem state visible to the process, together with oracles for
which I/O operations succeed. -/
structure FileSystem where
  /-- Regular files: association list from path to text content. -/
  files : List (FsPath × String)
  /-- Existing directories. -/
  dirs : List FsPath
  /-- Whether `fs::read_to_string` succeeds at a path (permissions, UTF-8). -/
  readable : FsPath → Bool
  /-- Whether `fs::write` succeeds at a path. -/
  writable : FsPath → Bool
  /-- Whether `fs::File::create` succeeds at a path. -/
  createOk : FsPath → Bool
  /-- Whether `fs::read_dir` succeeds at a path. -/
  readDirOk : FsPath → Bool
  /-- Whether an individual `read_dir` iterator item enumerates without error. -/
  entryOk : FsPath → Bool

/-- Content of the regular file at `p`, if one exists. -/
def FileSystem.fileContent (fs : FileSystem) (p : FsPath) : Option String :=
  (fs.files.find? (fun e => e.1 == p)).map (fun e => e.2)

/-- `FsPath::exists()`: true when `p` is a regular file or a directory. -/
def FileSystem.pathExists (fs : FileSystem) (p : FsPath) : Bool :=
  (fs.fileContent p).isSome || fs.dirs.contains p

/-- `fs::read_to_string`: the file's content when the read succeeds. -/
def FileSystem.read_to_string (fs : FileSystem) (p : FsPath) : Option String :=
  if fs.readable p then fs.fileContent p else none

/-- Successful `fs::write p c`: create-or-truncate `p` with content `c`. -/
def FileSystem.write (fs : FileSystem) (p : FsPath) (c : String) : FileSystem :=
  { fs with files := (p, c) :: fs.files.filter (fun e => !(e.1 == p)) }

/-- Successful `fs::File::create p`: an empty file at `p`. -/
def FileSystem.createFile (fs : FileSystem) (p : FsPath) : FileSystem :=
  fs.write p ""

/-- `p` is an immediate child of directory `d`: `p = d ++ [c]` for some
component `c`. -/
def FsPath.isChildOf (p d : FsPath) : Bool :=
  !p.isEmpty && p.dropLast == d

/-- The immediate children of `d` present on the filesystem (regular files
and directories), in enumeration order. -/
def FileSystem.childrenOf (fs : FileSystem) (d : FsPath) : List FsPath :=
  (fs.files.map Prod.fst ++ fs.dirs).filter (fun p => p.isChildOf d)

/-- `fs::read_dir`: when it succeeds, the list of iterator items, each item
being `some` child path or `none` for an item that errors. -/
def FileSystem.read_dir (fs : FileSystem) (d : FsPath) : Option (List (Option FsPath)) :=
  if fs.readDirOk d then
    some ((fs.childrenOf d).map (fun p => if fs.entryOk p then some p else none))
  else none

/-- `PathBuf::join` with a single-component file name; joining the empty name
yields a path denoting the directory itself (trailing-separator equivalence). -/
def FsPath.join (d : FsPath) (name : String) : FsPath :=
  if name = "" then d else d ++ [name]

/-- `egui::Color32` (rgba). -/
structure Color32 where
  r : Nat
  g : Nat
  b : Nat
  a : Nat
deriving DecidableEq

/-- `egui::Color32::from_rgb` (alpha 255). -/
def Color32.from_rgb (r g b : Nat) : Color32 :=
  ⟨r, g, b, 255⟩

/-- `egui::FontFamily` as used by the editor. -/
inductive FontFamily where
  | Monospace
  | Proportional
deriving DecidableEq

/-- The black-box grammar engine behind the `parser`, `highlighter` and
`highlight_config` handles. -/
structure Engine where
  /-- `Parser::parse`: `some` tree on success, `none` on failure. -/
  parse : String → Option Unit
  /-- `Highlighter::highlight`: on success, the category names passed to the
  capture callback, in order; `none` when the pass errors. -/
  highlightCaptures : String → Option (List String)

/-- The `TextEditor` application state (struct `TextEditor` in main.rs; the
parser/highlighter handles are the separate `Engine`). -/
structure TextEditor where
  content : String
  file_path : Option FsPath
  current_dir : Option FsPath
  dir_contents : List FsPath
  new_file_name : String
  show_settings : Bool
  font_size : Rat
  background_color : Color32
  text_color : Color32
  font_family : FontFamily
  line_spacing : Rat
deriving DecidableEq

/-- `TextEditor::new`: the initial state. -/
def TextEditor.new : TextEditor where
  content := ""
  file_path := none
  current_dir := none
  dir_contents := []
  new_file_name := ""
  show_settings := false
  font_size := 14
  background_color := Color32.from_rgb 255 255 255
  text_color := Color32.from_rgb 0 0 0
  font_family := FontFamily.Monospace
  line_spacing := 3 / 2

/-- `TextEditor::save`: if `file_path` is set, write `content` there (a failed
write only prints to stderr); the editor state itself is never modified. -/
def TextEditor.save (st : TextEditor) (fs : FileSystem) : TextEditor × FileSystem :=
  match st.file_path with
  | some path => if fs.writable path then (st, fs.write path st.content) else (st, fs)
  | none => (st, fs)

/-- `TextEditor::load`: on a successful read, replace `content` and set
`file_path`; on failure only print to stderr, leaving the state unchanged. -/
def TextEditor.load (st : TextEditor) (fs : FileSystem) (path : FsPath) : TextEditor :=
  match fs.read_to_string path with
  | some content => { st with content := content, file_path := some path }
  | none => st

/-- `TextEditor::update_dir_contents`: clear `dir_contents`, then, if a
current directory is set and `read_dir` succeeds, push the path of every
iterator item that enumerates without error. -/
def TextEditor.update_dir_contents (st : TextEditor) (fs : FileSystem) : TextEditor :=
  match st.current_dir with
  | none => { st with dir_contents := [] }
  | some dir =>
    match fs.read_dir dir with
    | none => { st with dir_contents := [] }
    | some entries => { st with dir_contents := entries.filterMap id }

/-- `TextEditor::open_directory`: set `current_dir`, then refresh. -/
def TextEditor.open_directory (st : TextEditor) (fs : FileSystem) (path : FsPath) : TextEditor :=
  TextEditor.update_dir_contents { st with current_dir := some path } fs

/-- `char::is_whitespace`: the Unicode White_Space property, as used by
`str::trim` — U+0009..U+000D, U+0020, U+0085, U+00A0, U+1680,
U+2000..U+200A, U+2028, U+2029, U+202F, U+205F and U+3000. -/
def isRustWhitespace (c : Char) : Bool :=
  (0x09 ≤ c.toNat && c.toNat ≤ 0x0D) || c.toNat == 0x20 || c.toNat == 0x85 ||
    c.toNat == 0xA0 || c.toNat == 0x1680 ||
    (0x2000 ≤ c.toNat && c.toNat ≤ 0x200A) ||
    c.toNat == 0x2028 || c.toNat == 0x2029 || c.toNat == 0x202F ||
    c.toNat == 0x205F || c.toNat == 0x3000

/-- `str::trim`: remove leading and trailing Unicode whitespace (defined over
the character list so that it evaluates by kernel reduction). -/
def strTrim (s : String) : String :=
  ⟨((s.data.dropWhile isRustWhitespace).reverse.dropWhile isRustWhitespace).reverse⟩

/-- `TextEditor::create_new_file`: if a current directory is set, join it with
the trimmed `new_file_name`; if the target does not exist and `File::create`
succeeds, push the target onto `dir_contents` and clear `new_file_name`. -/
def TextEditor.create_new_file (st : TextEditor) (fs : FileSystem) : TextEditor × FileSystem :=
  match st.current_dir with
  | none => (st, fs)
  | some dir =>
    let new_file_path := dir.join (strTrim st.new_file_name)
    if fs.pathExists new_file_path then (st, fs)
    else if fs.createOk new_file_path then
      ({ st with
          dir_contents := st.dir_contents ++ [new_file_path],
          new_file_name := "" },
        fs.createFile new_file_path)
    else (st, fs)

/-- `TextEditor::toggle_settings`. -/
def TextEditor.toggle_settings (st : TextEditor) : TextEditor :=
  { st with show_settings := !st.show_settings }

/-- The slice `&content[i..]` (indices modelled over characters; the editor
only ever slices at index 0, where byte and character indexing agree). -/
def strFrom (s : String) (i : Nat) : String :=
  ⟨s.data.drop i⟩

/-- `TextEditor::parse_and_highlight`: parse the content (panicking on
failure), run the highlight pass (panicking on failure) pushing one fragment
`(text_color, capture)` per capture callback invocation, then push a final
fragment with the content from `last_index` — which is never advanced from
zero.  A panic is modelled as the `none` result. -/
def TextEditor.parse_and_highlight (st : TextEditor) (eng : Engine) :
    Option (List (Color32 × String)) :=
  let last_index := 0
  match eng.parse st.content with
  | none => none
  | some _tree =>
    match eng.highlightCaptures st.content with
    | none => none
    | some captures =>
      let highlights := captures.map (fun capture => (st.text_color, capture))
      some (highlights ++ [(st.text_color, strFrom st.content last_index)])

/-- Concatenation of the `text` fields of a fragment list, in order. -/
def concatTexts (l : List (Color32 × String)) : String :=
  l.foldl (fun acc f => acc ++ f.2) ""

theorem strFrom_zero (s : String) : strFrom s 0 = s := rfl

/-! ## Concrete states used by witnesses -/

/-- A concrete filesystem: one file `home/f.txt` with content `hello`, one
directory `home`, every I/O operation permitted. -/
def fsW : FileSystem where
  files := [(["home", "f.txt"], "hello")]
  dirs := [["home"]]
  readable := fun _ => true
  writable := fun _ => true
  createOk := fun _ => true
  readDirOk := fun _ => true
  entryOk := fun _ => true

/-- A state whose buffer holds `hi` and whose `file_path` is `home/out.txt`. -/
def stS : TextEditor :=
  { TextEditor.new with content := "hi", file_path := some (["home", "out.txt"] : FsPath) }

/-- A state whose buffer holds the two-character document `fn`. -/
def stFn : TextEditor :=
  { TextEditor.new with content := "fn" }

/-- An engine that parses any text and reports a single capture named
`keyword`. -/
def engW : Engine where
  parse := fun _ => some ()
  highlightCaptures := fun _ => some ["keyword"]

/-! ## Claims -/

/-- Claim C1: when the parse and the highlight pass succeed,
`parse_and_highlight` produces one fragment per matched token capture whose
color is the configured text color and whose text is the name of the matched
category, followed by one final fragment whose text is the entire document
(`last_index` is never advanced from zero). -/
theorem parse_and_highlight_fragments (st : TextEditor) (eng : Engine) (tree : Unit)
    (caps : List String)
    (hp : eng.parse st.content = some tree)
    (hh : eng.highlightCaptures st.content = some caps) :
    st.parse_and_highlight eng =
      some (caps.map (fun c => (st.text_color, c)) ++ [(st.text_color, st.content)]) := by
  simp [TextEditor.parse_and_highlight, hp, hh, strFrom_zero]

/-- Witness for C1 at the document `fn` with one capture `keyword`. -/
theorem parse_and_highlight_fragments_witness :
    stFn.parse_and_highlight engW =
      some ((["keyword"].map (fun c => (stFn.text_color, c))) ++
        [(stFn.text_color, stFn.content)]) :=
  parse_and_highlight_fragments stFn engW () ["keyword"] rfl rfl

/-- Claim C2 (failure of the claimed round-trip law at a concrete input): on
the document `fn` with one capture named `keyword`, concatenating the texts of
the produced fragments yields `keywordfn`, not the document `fn`. -/
theorem parse_and_highlight_not_roundtrip :
    concatTexts ((stFn.parse_and_highlight engW).getD []) = "keywordfn" ∧
    "keywordfn" ≠ stFn.content :=
  ⟨rfl, by decide⟩

/-- Claim C3: a read that succeeds with content `C` sets `content` to exactly
`C` and `file_path` to the given path. -/
theorem load_success (st : TextEditor) (fs : FileSystem) (path : FsPath) (C : String)
    (h : fs.read_to_string path = some C) :
    (st.load fs path).content = C ∧ (st.load fs path).file_path = some path := by
  simp [TextEditor.load, h]

/-- Witness for C3 at the file `home/f.txt` of the concrete filesystem. -/
theorem load_success_witness :
    (TextEditor.new.load fsW ["home", "f.txt"]).content = "hello" ∧
    (TextEditor.new.load fsW ["home", "f.txt"]).file_path =
      some (["home", "f.txt"] : FsPath) :=
  load_success TextEditor.new fsW ["home", "f.txt"] "hello" rfl

/-- Claim C4: a read that fails leaves the whole editor state — in particular
`content` and `file_path` — unchanged, and the operation is total (no crash). -/
theorem load_failure (st : TextEditor) (fs : FileSystem) (path : FsPath)
    (h : fs.read_to_string path = none) :
    st.load fs path = st := by
  simp [TextEditor.load, h]

/-- Witness for C4 at a path absent from the concrete filesystem. -/
theorem load_failure_witness :
    TextEditor.new.load fsW ["nope.txt"] = TextEditor.new :=
  load_failure TextEditor.new fsW ["nope.txt"] rfl

/-- Claim C5: with `file_path` set to a writable, readable path, `save` leaves
the editor state unchanged and writes `content` to the path, so reading the
path back yields exactly `content`; with `file_path` unset, `save` changes
neither the state nor the filesystem. -/
theorem save_spec (st : TextEditor) (fs : FileSystem) :
    (∀ p, st.file_path = some p → fs.writable p = true → fs.readable p = true →
      (st.save fs).1 = st ∧ (st.save fs).2.read_to_string p = some st.content) ∧
    (st.file_path = none → st.save fs = (st, fs)) := by
  constructor
  · intro p hp hw hr
    refine ⟨by simp [TextEditor.save, hp, hw], ?_⟩
    simp [TextEditor.save, hp, hw, FileSystem.read_to_string, FileSystem.write,
      FileSystem.fileContent, hr, List.find?]
  · intro hp
    simp [TextEditor.save, hp]

/-- Witness for C5: both the set-path case (at `home/out.txt`) and the
unset-path case on the concrete filesystem. -/
theorem save_spec_witness :
    ((stS.save fsW).1 = stS ∧
      (stS.save fsW).2.read_to_string ["home", "out.txt"] = some "hi") ∧
    TextEditor.new.save fsW = (TextEditor.new, fsW) :=
  ⟨by
      have h := (save_spec stS fsW).1 ["home", "out.txt"] rfl rfl rfl
      simpa [stS] using h,
    (save_spec TextEditor.new fsW).2 rfl⟩

/-- Claim C8: `parse_and_highlight` panics — modelled as the `none` result,
with no fragment list produced and no plain-text fallback — exactly when the
parse fails or the highlight pass fails. -/
theorem parse_and_highlight_fatal (st : TextEditor) (eng : Engine) :
    st.parse_and_highlight eng = none ↔
      eng.parse st.content = none ∨ eng.highlightCaptures st.content = none := by
  cases hp : eng.parse st.content <;> cases hh : eng.highlightCaptures st.content <;>
    simp [TextEditor.parse_and_highlight, hp, hh]

/-- A state browsing `home` with pending new-file name ` new.txt `. -/
def stC : TextEditor :=
  { TextEditor.new with
      current_dir := some (["home"] : FsPath), new_file_name := " new.txt " }

/-- A state browsing `home` whose pending new-file name is all whitespace. -/
def stE : TextEditor :=
  { TextEditor.new with
      current_dir := some (["home"] : FsPath), new_file_name := "   " }

/-- Claim C6: when the trimmed name names a target `currentDir/name` that does
not exist and creation succeeds, `create_new_file` creates an empty file at
the target and appends it to `dir_contents`; calling it again with the same
name (the field was cleared by the first call, so it is set again) is a
no-op: the file, the entries and the whole state are unchanged and no error
is raised. -/
theorem create_new_file_creates (st : TextEditor) (fs : FileSystem) (D target : FsPath)
    (hdir : st.current_dir = some D)
    (htarget : target = D.join (strTrim st.new_file_name))
    (hnew : fs.pathExists target = false)
    (hok : fs.createOk target = true) :
    ((st.create_new_file fs).2.fileContent target = some "" ∧
      (st.create_new_file fs).1.dir_contents = st.dir_contents ++ [target]) ∧
    ({ (st.create_new_file fs).1 with
        new_file_name := st.new_file_name }.create_new_file (st.create_new_file fs).2 =
      ({ (st.create_new_file fs).1 with new_file_name := st.new_file_name },
        (st.create_new_file fs).2)) := by
  subst htarget
  have hr : st.create_new_file fs =
      ({ st with
          dir_contents := st.dir_contents ++ [D.join (strTrim st.new_file_name)],
          new_file_name := "" },
        fs.createFile (D.join (strTrim st.new_file_name))) := by
    simp [TextEditor.create_new_file, hdir, hnew, hok]
  have hcontent : (fs.createFile (D.join (strTrim st.new_file_name))).fileContent
      (D.join (strTrim st.new_file_name)) = some "" := by
    simp [FileSystem.createFile, FileSystem.write, FileSystem.fileContent,
      List.find?_cons_of_pos]
  rw [hr]
  refine ⟨⟨hcontent, rfl⟩, ?_⟩
  have hx : (fs.createFile (D.join (strTrim st.new_file_name))).pathExists
      (D.join (strTrim st.new_file_name)) = true := by
    simp [FileSystem.pathExists, hcontent]
  simp [TextEditor.create_new_file, hdir, hx]

/-- Witness for C6: creating ` new.txt ` (trimming to `new.txt`) in `home` on
the concrete filesystem, then calling again with the same name. -/
theorem create_new_file_creates_witness :
    ((stC.create_new_file fsW).2.fileContent ["home", "new.txt"] = some "" ∧
      (stC.create_new_file fsW).1.dir_contents =
        stC.dir_contents ++ [["home", "new.txt"]]) ∧
    ({ (stC.create_new_file fsW).1 with
        new_file_name := stC.new_file_name }.create_new_file (stC.create_new_file fsW).2 =
      ({ (stC.create_new_file fsW).1 with new_file_name := stC.new_file_name },
        (stC.create_new_file fsW).2)) :=
  create_new_file_creates stC fsW ["home"] ["home", "new.txt"] rfl rfl rfl rfl

/-- Claim C7: `open_directory D` sets `current_dir` to `D` and refreshes:
afterwards a path is in `dir_contents` exactly when it is an immediate child
of `D` present on the filesystem whose directory entry enumerates without
error (erroring entries are silently skipped). -/
theorem open_directory_entries (st : TextEditor) (fs : FileSystem) (D : FsPath)
    (h : fs.readDirOk D = true) :
    (st.open_directory fs D).current_dir = some D ∧
    ∀ p : FsPath, p ∈ (st.open_directory fs D).dir_contents ↔
      (p.isChildOf D = true ∧ (p ∈ fs.files.map Prod.fst ∨ p ∈ fs.dirs) ∧
        fs.entryOk p = true) := by
  constructor
  · simp [TextEditor.open_directory, TextEditor.update_dir_contents, FileSystem.read_dir, h]
  · intro p
    simp only [TextEditor.open_directory, TextEditor.update_dir_contents,
      FileSystem.read_dir, h, if_true, FileSystem.childrenOf]
    simp only [List.mem_filterMap, List.mem_map, List.mem_filter, List.mem_append, id]
    constructor
    · rintro ⟨o, ⟨q, ⟨hq, hchild⟩, hoq⟩, ho⟩
      by_cases he : fs.entryOk q = true
      · rw [if_pos he] at hoq
        cases hoq
        cases ho
        exact ⟨hchild, hq, he⟩
      · rw [if_neg he] at hoq
        cases hoq
        cases ho
    · rintro ⟨hchild, hq, he⟩
      exact ⟨some p, ⟨p, ⟨hq, hchild⟩, by rw [if_pos he]⟩, rfl⟩

/-- Witness for C7: opening `home` on the concrete filesystem lists its only
child `home/f.txt`. -/
theorem open_directory_entries_witness :
    (TextEditor.new.open_directory fsW ["home"]).current_dir = some (["home"] : FsPath) ∧
    (["home", "f.txt"] : FsPath) ∈ (TextEditor.new.open_directory fsW ["home"]).dir_contents :=
  ⟨(open_directory_entries TextEditor.new fsW ["home"] rfl).1,
    ((open_directory_entries TextEditor.new fsW ["home"] rfl).2 ["home", "f.txt"]).mpr
      ⟨rfl, Or.inl (by decide), rfl⟩⟩

/-- Claim C9: `create_new_file` clears `new_file_name` to the empty string
exactly when a file is actually created; when the target already exists, when
creation fails, or when no current directory is set, the field is unchanged. -/
theorem create_new_file_name_field (st : TextEditor) (fs : FileSystem) :
    (st.current_dir = none →
      (st.create_new_file fs).1.new_file_name = st.new_file_name) ∧
    (∀ D, st.current_dir = some D →
      (fs.pathExists (D.join (strTrim st.new_file_name)) = true →
        (st.create_new_file fs).1.new_file_name = st.new_file_name) ∧
      (fs.pathExists (D.join (strTrim st.new_file_name)) = false →
        fs.createOk (D.join (strTrim st.new_file_name)) = false →
        (st.create_new_file fs).1.new_file_name = st.new_file_name) ∧
      (fs.pathExists (D.join (strTrim st.new_file_name)) = false →
        fs.createOk (D.join (strTrim st.new_file_name)) = true →
        (st.create_new_file fs).1.new_file_name = "")) := by
  refine ⟨fun h => ?_, fun D hdir => ⟨fun hex => ?_, fun hex hok => ?_, fun hex hok => ?_⟩⟩
  · simp [TextEditor.create_new_file, h]
  · simp [TextEditor.create_new_file, hdir, hex]
  · simp [TextEditor.create_new_file, hdir, hex, hok]
  · simp [TextEditor.create_new_file, hdir, hex, hok]

/-- Witness for C9: the creation case clears the field on the concrete state. -/
theorem create_new_file_name_field_witness :
    (stC.create_new_file fsW).1.new_file_name = "" :=
  ((create_new_file_name_field stC fsW).2 ["home"] rfl).2.2 rfl rfl

/-- Claim C10: when the pending name trims to the empty string and the current
directory exists, the joined target is the current directory itself, which
already exists, so `create_new_file` creates no file and changes nothing. -/
theorem create_new_file_empty_name (st : TextEditor) (fs : FileSystem) (D : FsPath)
    (hdir : st.current_dir = some D)
    (hname : strTrim st.new_file_name = "")
    (hD : fs.dirs.contains D = true) :
    st.create_new_file fs = (st, fs) := by
  have hD2 : D ∈ fs.dirs := by simpa using hD
  have hx : fs.pathExists (D.join (strTrim st.new_file_name)) = true := by
    rw [hname]
    simp [FsPath.join, FileSystem.pathExists, hD2]
  simp [TextEditor.create_new_file, hdir, hx]

/-- Witness for C10: an all-whitespace pending name in `home` changes nothing
on the concrete filesystem. -/
theorem create_new_file_empty_name_witness :
    stE.create_new_file fsW = (stE, fsW) :=
  create_new_file_empty_name stE fsW ["home"] rfl rfl rfl
